import Mathlib

/-
  Verification of the display-detection script (src/detect_displays.py).

  The script enumerates Windows display devices and prints a textual report.
  We embed its pure core: the string helpers `extract_display_id`,
  `get_orientation_name`, the inline geometry-based orientation
  classification, the report generator `print_display_report` (modelled as a
  pure function from the display list to the emitted text), the `main`
  control flow (modelled with explicit exit codes and an explicit flag
  recording whether the report generator was invoked), and the top-level
  `__main__` exception handler (modelled as a function on run outcomes).
-/

namespace DetectDisplays

/-- Models Python `str.split(sep)` with a single-character separator, on the
character list of a string: empty input yields `[[]]`, and separators at the
ends yield empty segments, exactly as in Python. -/
def splitChars (c : Char) : List Char → List (List Char)
  | [] => [[]]
  | ch :: rest =>
    let groups := splitChars c rest
    if ch = c then [] :: groups
    else
      match groups with
      | [] => [[ch]]
      | g :: gs => (ch :: g) :: gs

/-- Python `s.split(c)` for a one-character separator `c`. -/
def pySplit (c : Char) (s : String) : List String :=
  (splitChars c s.data).map String.mk

/-- Python `print(s)`: the emitted text is `s` followed by a newline. -/
def pyPrint (s : String) : String :=
  s ++ "\n"

/-- Python `ch * n` for a single character: `n` copies of `ch`. -/
def repChar (ch : Char) (n : Nat) : String :=
  String.mk (List.replicate n ch)

/-- Python format spec `{s:<70}`: left-align `s` in a field of width 70,
padding with spaces on the right (no padding when `s` is already longer). -/
def padTo70 (s : String) : String :=
  s ++ repChar ' ' (70 - s.length)

/-- The body of the `try:` block of `extract_display_id`
(src/detect_displays.py lines 83-87). A `none` argument models Python `None`,
on which `device_id.split` raises (modelled as `Except.error`); a string
argument runs the body: split on `#`, use `parts[1] + "_" + parts[2]` when
there are at least 3 parts, otherwise the last `\`-delimited segment. -/
def extract_display_id_try : Option String → Except String String
  | none => Except.error "AttributeError: NoneType object has no attribute split"
  | some device_id =>
    let parts := pySplit '#' device_id
    if parts.length ≥ 3 then
      Except.ok ((parts.getD 1 "") ++ "_" ++ (parts.getD 2 ""))
    else
      Except.ok ((pySplit '\\' device_id).getLastD "")

/-- Python `extract_display_id(device_id)` (src/detect_displays.py lines
79-89): runs the `try:` body and maps any exception to `"UNKNOWN"`. -/
def extract_display_id (device_id : Option String) : String :=
  match extract_display_id_try device_id with
  | Except.ok s => s
  | Except.error _ => "UNKNOWN"

/-- Python `get_orientation_name(orientation)` (src/detect_displays.py lines
68-76): the dictionary lookup with the `f"Unknown ({orientation}°)"`
default. -/
def get_orientation_name (orientation : Int) : String :=
  if orientation = 0 then "Landscape (0°)"
  else if orientation = 1 then "Portrait (90°)"
  else if orientation = 2 then "Landscape Flipped (180°)"
  else if orientation = 3 then "Portrait Flipped (270°)"
  else "Unknown (" ++ toString orientation ++ "°)"

/-- The inline geometry classification of `print_display_report`
(src/detect_displays.py lines 103-104): `"Landscape"` when width > height,
`"Portrait"` when width < height, `"Square"` otherwise. -/
def classify_orientation (width height : Nat) : String :=
  if width > height then "Landscape"
  else if width < height then "Portrait"
  else "Square"

/-- The lower-case variant used in the folder and configuration sections
(src/detect_displays.py lines 136-137 and 153-154). -/
def classify_orientation_lower (width height : Nat) : String :=
  if width > height then "landscape"
  else if width < height then "portrait"
  else "square"

/-- One record of the dictionary built per display by `get_display_info`
(src/detect_displays.py lines 40-55). -/
structure Display where
  index : Nat
  device_name : String
  device_string : String
  device_id : String
  device_key : String
  width : Nat
  height : Nat
  position_x : Int
  position_y : Int
  frequency : Nat
  bits_per_pixel : Nat
  orientation : Int
  is_primary : Bool
  state_flags : Nat
  deriving DecidableEq, Repr

/-- The geometry-based orientation string computed for a display inside
`print_display_report` (src/detect_displays.py lines 103-104). -/
def report_orientation (d : Display) : String :=
  classify_orientation d.width d.height

/-- Python `" (PRIMARY)" if display['is_primary'] else ""`
(src/detect_displays.py line 102). -/
def primary_text (d : Display) : String :=
  if d.is_primary then " (PRIMARY)" else ""

/-- The per-display detail block of the report
(src/detect_displays.py lines 101-126). -/
def display_block (d : Display) : String :=
  pyPrint ("┌" ++ repChar '─' 78 ++ "┐") ++
  pyPrint ("│ Display " ++ toString d.index ++ padTo70 (primary_text d) ++ "│") ++
  pyPrint ("└" ++ repChar '─' 78 ++ "┘") ++
  pyPrint ("  Monitor Name:       " ++ d.device_string) ++
  pyPrint ("  Device Name:        " ++ d.device_name) ++
  pyPrint ("  Simple ID:          " ++ extract_display_id (some d.device_id)) ++
  pyPrint ("  Resolution:         " ++ toString d.width ++ "x" ++ toString d.height) ++
  pyPrint ("  Orientation:        " ++ report_orientation d ++ " (" ++
    get_orientation_name d.orientation ++ ")") ++
  pyPrint ("  Position:           x:" ++ toString d.position_x ++ ", y:" ++
    toString d.position_y) ++
  pyPrint ("  Refresh Rate:       " ++ toString d.frequency ++ " Hz") ++
  pyPrint ("  Color Depth:        " ++ toString d.bits_per_pixel ++ "-bit") ++
  pyPrint ("  Primary Display:    " ++ (if d.is_primary then "Yes" else "No")) ++
  pyPrint "\n  Full Device ID:" ++
  pyPrint ("    " ++ d.device_id) ++
  pyPrint "\n  Registry Key:" ++
  pyPrint ("    " ++ d.device_key) ++
  pyPrint ""

/-- The `_default` folder path suggested for a display
(src/detect_displays.py line 140). -/
def folder_default_path (d : Display) : String :=
  "C:\\" ++ extract_display_id (some d.device_id) ++ "_default\\video.mp4"

/-- The `_trigger` folder path suggested for a display
(src/detect_displays.py line 141). -/
def folder_trigger_path (d : Display) : String :=
  "C:\\" ++ extract_display_id (some d.device_id) ++ "_trigger\\video.mp4"

/-- One display entry of the folder-name-suggestions block
(src/detect_displays.py lines 134-142). -/
def folder_suggestion (d : Display) : String :=
  pyPrint ("Display " ++ toString d.index ++ ": " ++ d.device_string ++ " (" ++
    toString d.width ++ "x" ++ toString d.height ++ " " ++
    classify_orientation_lower d.width d.height ++ ")") ++
  pyPrint ("  " ++ folder_default_path d) ++
  pyPrint ("  " ++ folder_trigger_path d) ++
  pyPrint ""

/-- The display entries of the folder-suggestion section, in enumeration
order. -/
def folder_entries (ds : List Display) : List String :=
  ds.map folder_suggestion

/-- One display entry of the `CONFIGURATION FOR main.js` block
(src/detect_displays.py lines 151-157). -/
def config_entry (d : Display) : String :=
  pyPrint ("  // " ++ d.device_string ++ " (" ++ toString d.width ++ "x" ++
    toString d.height ++ " " ++ classify_orientation_lower d.width d.height ++ ")") ++
  pyPrint ("  \x27" ++ extract_display_id (some d.device_id) ++
    "\x27: \x27your_custom_name\x27,") ++
  pyPrint ""

/-- The key of alternative-identification Option 1: the SimpleId
(src/detect_displays.py line 169). -/
def option1_key (d : Display) : String :=
  extract_display_id (some d.device_id)

/-- The key of alternative-identification Option 2: `"<width>x<height>"`
(src/detect_displays.py line 175). -/
def option2_key (d : Display) : String :=
  toString d.width ++ "x" ++ toString d.height

/-- The key of alternative-identification Option 3:
`"x<position_x>_y<position_y>"` (src/detect_displays.py line 181). -/
def option3_key (d : Display) : String :=
  "x" ++ toString d.position_x ++ "_y" ++ toString d.position_y

/-- The key of alternative-identification Option 4: the monitor name
(src/detect_displays.py line 187). -/
def option4_key (d : Display) : String :=
  d.device_string

/-- One keyed line of alternative-identification Option 1. -/
def option1_entry (d : Display) : String :=
  pyPrint ("  \x27" ++ option1_key d ++ "\x27: \x27folder_name\x27,")

/-- One keyed line of alternative-identification Option 2. -/
def option2_entry (d : Display) : String :=
  pyPrint ("  \x27" ++ option2_key d ++ "\x27: \x27folder_name\x27,")

/-- One keyed line of alternative-identification Option 3. -/
def option3_entry (d : Display) : String :=
  pyPrint ("  \x27" ++ option3_key d ++ "\x27: \x27folder_name\x27,")

/-- One keyed line of alternative-identification Option 4. -/
def option4_entry (d : Display) : String :=
  pyPrint ("  \x27" ++ option4_key d ++ "\x27: \x27folder_name\x27,")

/-- The keyed entries of alternative-identification Option 1, in order. -/
def option1_entries (ds : List Display) : List String :=
  ds.map option1_entry

/-- The keyed entries of alternative-identification Option 2, in order. -/
def option2_entries (ds : List Display) : List String :=
  ds.map option2_entry

/-- The keyed entries of alternative-identification Option 3, in order. -/
def option3_entries (ds : List Display) : List String :=
  ds.map option3_entry

/-- The keyed entries of alternative-identification Option 4, in order. -/
def option4_entries (ds : List Display) : List String :=
  ds.map option4_entry

/-- The report header (src/detect_displays.py lines 95-99). -/
def header_section (n : Nat) : String :=
  pyPrint ("\n" ++ repChar '=' 80) ++
  pyPrint (repChar ' ' 25 ++ "DISPLAY DETECTION REPORT") ++
  pyPrint (repChar '=' 80 ++ "\n") ++
  pyPrint ("Total Displays Found: " ++ toString n ++ "\n")

/-- The folder-name-suggestions section (src/detect_displays.py lines
128-142). -/
def folder_section (ds : List Display) : String :=
  pyPrint (repChar '=' 80) ++
  pyPrint (repChar ' ' 25 ++ "FOLDER NAME SUGGESTIONS") ++
  pyPrint (repChar '=' 80 ++ "\n") ++
  pyPrint "Create these folders in C:\\ for your videos:\n" ++
  String.join (folder_entries ds)

/-- The `CONFIGURATION FOR main.js` section (src/detect_displays.py lines
144-159). -/
def config_section (ds : List Display) : String :=
  pyPrint (repChar '=' 80) ++
  pyPrint (repChar ' ' 22 ++ "CONFIGURATION FOR main.js") ++
  pyPrint (repChar '=' 80 ++ "\n") ++
  pyPrint "Add this to DISPLAY_VIDEO_CONFIG in main.js:\n" ++
  pyPrint "const DISPLAY_VIDEO_CONFIG = \x7b" ++
  String.join (ds.map config_entry) ++
  pyPrint "\x7d;\n"

/-- The four alternative-identification blocks (src/detect_displays.py lines
161-188). -/
def alt_section (ds : List Display) : String :=
  pyPrint (repChar '=' 80) ++
  pyPrint (repChar ' ' 20 ++ "ALTERNATIVE IDENTIFICATION METHODS") ++
  pyPrint (repChar '=' 80 ++ "\n") ++
  pyPrint "Option 1: By Simple ID (Extracted from Device ID)" ++
  pyPrint "const DISPLAY_VIDEO_CONFIG = \x7b" ++
  String.join (option1_entries ds) ++
  pyPrint "\x7d;\n" ++
  pyPrint "Option 2: By Resolution" ++
  pyPrint "const DISPLAY_VIDEO_CONFIG = \x7b" ++
  String.join (option2_entries ds) ++
  pyPrint "\x7d;\n" ++
  pyPrint "Option 3: By Position" ++
  pyPrint "const DISPLAY_VIDEO_CONFIG = \x7b" ++
  String.join (option3_entries ds) ++
  pyPrint "\x7d;\n" ++
  pyPrint "Option 4: By Monitor Name (only if different)" ++
  pyPrint "const DISPLAY_VIDEO_CONFIG = \x7b" ++
  String.join (option4_entries ds) ++
  pyPrint "\x7d;\n"

/-- Python `print_display_report(displays)` (src/detect_displays.py lines
92-190), modelled as the text it writes to standard output. -/
def print_display_report (ds : List Display) : String :=
  header_section ds.length ++
  String.join (ds.map display_block) ++
  folder_section ds ++
  config_section ds ++
  alt_section ds ++
  pyPrint (repChar '=' 80 ++ "\n")

/-- The observable result of `main`: the emitted text, the exit status of the
process, and whether `print_display_report` was invoked. -/
structure MainResult where
  output : String
  exit_code : Nat
  report_called : Bool
  deriving DecidableEq, Repr

/-- Python `main()` (src/detect_displays.py lines 193-209), as a function of
the display list the enumerator returned. `sys.exit(1)` inside the empty
branch ends the process there, so the later lines are modelled only in the
non-empty branch. -/
def main (displays : List Display) : MainResult :=
  let intro := pyPrint "\n🖥️  Detecting connected displays..."
  if displays.isEmpty then
    { output := intro ++
        pyPrint "\n❌ ERROR: No displays detected!" ++
        pyPrint "Make sure your monitors are connected and turned on."
      exit_code := 1
      report_called := false }
  else
    { output := intro ++
        pyPrint ("✅ Found " ++ toString displays.length ++ " display(s)") ++
        print_display_report displays ++
        pyPrint "Detection complete!" ++
        pyPrint "\n💡 TIP: Use the Simple ID or Resolution for your folder names" ++
        pyPrint "   The Simple ID is stable and unique for each monitor.\n"
      exit_code := 0
      report_called := true }

/-- How a run of `main()` ends, as seen by the `__main__` handler
(src/detect_displays.py lines 212-222): a normal completion carrying the
`MainResult` (`sys.exit` raises `SystemExit`, which `except Exception` does
not catch, so the chosen exit status survives), a `KeyboardInterrupt`, or
any other exception carrying its message. -/
inductive RunOutcome where
  | normal (r : MainResult)
  | interrupted
  | raised (msg : String)
  deriving DecidableEq, Repr

/-- The `__main__` try/except block (src/detect_displays.py lines 212-222):
the text printed by the handler together with the final exit status. -/
def top_level : RunOutcome → String × Nat
  | RunOutcome.normal r => (r.output, r.exit_code)
  | RunOutcome.interrupted =>
      (pyPrint "\n\nDetection cancelled by user.", 0)
  | RunOutcome.raised msg =>
      (pyPrint ("\n❌ ERROR: " ++ msg) ++
       pyPrint "\nIf you see import errors, install pywin32:" ++
       pyPrint "  pip install pywin32", 1)

/-- Two display records agree on every stored field except `state_flags`. -/
def sameExceptFlags (d1 d2 : Display) : Prop :=
  d1.index = d2.index ∧ d1.device_name = d2.device_name ∧
  d1.device_string = d2.device_string ∧ d1.device_id = d2.device_id ∧
  d1.device_key = d2.device_key ∧ d1.width = d2.width ∧
  d1.height = d2.height ∧ d1.position_x = d2.position_x ∧
  d1.position_y = d2.position_y ∧ d1.frequency = d2.frequency ∧
  d1.bits_per_pixel = d2.bits_per_pixel ∧ d1.orientation = d2.orientation ∧
  d1.is_primary = d2.is_primary

/-- A concrete primary 1920x1080 display at (0,0), used to instantiate
universally quantified theorems. -/
def demoDisplay0 : Display :=
  { index := 0
    device_name := "\\\\.\\DISPLAY1"
    device_string := "Generic PnP Monitor"
    device_id := "\\\\?\\DISPLAY#GSM5BBB#4&1a2b3c&0&UID123#\x7bguid\x7d"
    device_key := "\\Registry\\Machine\\System\\CurrentControlSet\\Control\\Video\\\x7bkey\x7d\\0000"
    width := 1920
    height := 1080
    position_x := 0
    position_y := 0
    frequency := 60
    bits_per_pixel := 32
    orientation := 0
    is_primary := true
    state_flags := 5 }

/-- A concrete secondary 1080x1920 display at (1920,0). -/
def demoDisplay1 : Display :=
  { index := 1
    device_name := "\\\\.\\DISPLAY2"
    device_string := "Dell U2419H"
    device_id := "\\\\?\\DISPLAY#DELA0DE#5&9z8y7x&0&UID256#\x7bguid\x7d"
    device_key := "\\Registry\\Machine\\System\\CurrentControlSet\\Control\\Video\\\x7bkey\x7d\\0001"
    width := 1080
    height := 1920
    position_x := 1920
    position_y := 0
    frequency := 75
    bits_per_pixel := 32
    orientation := 1
    is_primary := false
    state_flags := 1 }

/-- Helper: string concatenation is associative. -/
theorem str_append_assoc (a b c : String) : a ++ b ++ c = a ++ (b ++ c) :=
  String.append_assoc a b c

/-- Claim C1: when the `#`-split of the device id has at least 3 parts,
`extract_display_id` returns `parts[1] ++ "_" ++ parts[2]`; the spec's example
yields `"GSM5BBB_4&1a2b3c&0&UID123"`; with fewer than 3 parts it returns the
last `\`-delimited segment, so `"A\B\C"` yields `"C"`. -/
theorem C1_simple_id_derivation :
    (∀ s : String, 3 ≤ (pySplit '#' s).length →
      extract_display_id (some s) =
        (pySplit '#' s).getD 1 "" ++ "_" ++ (pySplit '#' s).getD 2 "") ∧
    extract_display_id
        (some "\\\\?\\DISPLAY#GSM5BBB#4&1a2b3c&0&UID123#\x7bguid\x7d") =
      "GSM5BBB_4&1a2b3c&0&UID123" ∧
    (∀ s : String, (pySplit '#' s).length < 3 →
      extract_display_id (some s) = (pySplit '\\' s).getLastD "") ∧
    extract_display_id (some "A\\B\\C") = "C" := by
  refine ⟨?_, by decide, ?_, by decide⟩
  · intro s h
    simp [extract_display_id, extract_display_id_try, h]
  · intro s h
    simp [extract_display_id, extract_display_id_try, Nat.not_le.mpr h]

/-- Witness for C1 at concrete inputs on both branches. -/
theorem C1_simple_id_witness :
    (3 ≤ (pySplit '#' "a#b#c").length ∧
      extract_display_id (some "a#b#c") =
        (pySplit '#' "a#b#c").getD 1 "" ++ "_" ++ (pySplit '#' "a#b#c").getD 2 "") ∧
    ((pySplit '#' "A\\B\\C").length < 3 ∧
      extract_display_id (some "A\\B\\C") = (pySplit '\\' "A\\B\\C").getLastD "") :=
  ⟨⟨by decide, C1_simple_id_derivation.1 "a#b#c" (by decide)⟩,
   ⟨by decide, C1_simple_id_derivation.2.2.1 "A\\B\\C" (by decide)⟩⟩

/-- Claim C2 counterexample: on the empty string the code does not return
`"UNKNOWN"`; the `#`-split of `""` is `[""]`, so the fallback branch returns
the last `\`-delimited segment of `""`, which is `""`. -/
theorem C2_empty_counterexample :
    extract_display_id (some "") = "" ∧
    extract_display_id (some "") ≠ "UNKNOWN" := by
  decide

/-- Claim C2 (amended): a `None` input yields `"UNKNOWN"` (the raised
attribute error is caught), while the empty-string input yields the empty
string. -/
theorem C2_amended_none_empty :
    extract_display_id none = "UNKNOWN" ∧ extract_display_id (some "") = "" := by
  decide

/-- Claim C3: for positive width and height the geometry classification is
`"Landscape"` when width > height, `"Portrait"` when width < height and
`"Square"` when they are equal; the three spec examples hold; and the
classification used in the report ignores the display's rotation code. -/
theorem C3_geometry_classification :
    (∀ w h : Nat, 0 < w → 0 < h →
      (h < w → classify_orientation w h = "Landscape") ∧
      (w < h → classify_orientation w h = "Portrait") ∧
      (w = h → classify_orientation w h = "Square")) ∧
    classify_orientation 1920 1080 = "Landscape" ∧
    classify_orientation 1080 1920 = "Portrait" ∧
    classify_orientation 500 500 = "Square" ∧
    (∀ (d : Display) (rot : Int),
      report_orientation { d with orientation := rot } = report_orientation d) := by
  refine ⟨?_, by decide, by decide, by decide, fun d rot => rfl⟩
  intro w h _ _
  refine ⟨fun hlt => ?_, fun hlt => ?_, fun heq => ?_⟩
  · simp [classify_orientation, hlt]
  · simp [classify_orientation, hlt, Nat.lt_asymm hlt]
  · subst heq
    simp [classify_orientation]

/-- Witness for C3 at 1920x1080. -/
theorem C3_geometry_witness :
    0 < 1920 ∧ 0 < 1080 ∧ classify_orientation 1920 1080 = "Landscape" :=
  ⟨by decide, by decide,
   (C3_geometry_classification.1 1920 1080 (by decide) (by decide)).1 (by decide)⟩

/-- Claim C4: `get_orientation_name` maps 0..3 to the four fixed labels and
every other integer to `"Unknown (<code>°)"`; in particular 99 maps to
`"Unknown (99°)"`. -/
theorem C4_orientation_label :
    get_orientation_name 0 = "Landscape (0°)" ∧
    get_orientation_name 1 = "Portrait (90°)" ∧
    get_orientation_name 2 = "Landscape Flipped (180°)" ∧
    get_orientation_name 3 = "Portrait Flipped (270°)" ∧
    (∀ code : Int, code ≠ 0 → code ≠ 1 → code ≠ 2 → code ≠ 3 →
      get_orientation_name code = "Unknown (" ++ toString code ++ "°)") ∧
    get_orientation_name 99 = "Unknown (99°)" := by
  refine ⟨by decide, by decide, by decide, by decide, ?_, by decide⟩
  intro code h0 h1 h2 h3
  simp [get_orientation_name, h0, h1, h2, h3]

/-- Witness for C4 at the out-of-range code 99. -/
theorem C4_orientation_witness :
    (99 : Int) ≠ 0 ∧
    get_orientation_name 99 = "Unknown (" ++ toString (99 : Int) ++ "°)" :=
  ⟨by decide,
   C4_orientation_label.2.2.2.2.1 99 (by decide) (by decide) (by decide) (by decide)⟩

/-- Claim C5: on an empty display list, `main` exits with status 1, prints the
no-displays error text, and never invokes `print_display_report`. -/
theorem C5_empty_exits_one (ds : List Display) (h : ds = []) :
    (main ds).exit_code = 1 ∧ (main ds).report_called = false ∧
    (main ds).output =
      pyPrint "\n🖥️  Detecting connected displays..." ++
      pyPrint "\n❌ ERROR: No displays detected!" ++
      pyPrint "Make sure your monitors are connected and turned on." := by
  subst h
  exact ⟨rfl, rfl, rfl⟩

/-- Witness for C5 at the empty list. -/
theorem C5_empty_witness :
    (main ([] : List Display)).exit_code = 1 ∧
    (main ([] : List Display)).report_called = false ∧
    (main ([] : List Display)).output =
      pyPrint "\n🖥️  Detecting connected displays..." ++
      pyPrint "\n❌ ERROR: No displays detected!" ++
      pyPrint "Make sure your monitors are connected and turned on." :=
  C5_empty_exits_one [] rfl

/-- Claim C6: the report generator is deterministic; on identical input
sequences it produces identical text. -/
theorem C6_report_deterministic (ds1 ds2 : List Display) (h : ds1 = ds2) :
    print_display_report ds1 = print_display_report ds2 := by
  rw [h]

/-- Witness for C6 on a concrete one-display list. -/
theorem C6_deterministic_witness :
    print_display_report [demoDisplay0] = print_display_report [demoDisplay0] :=
  C6_report_deterministic [demoDisplay0] [demoDisplay0] rfl

/-- Claim C7: for a two-display input (primary 1920x1080 at (0,0), secondary
1080x1920 at (1920,0)), the folder-suggestion section has exactly two display
entries in enumeration order, each with exactly the `_default` and `_trigger`
suggested paths, and each of the four alternative-identification sections has
exactly two keyed entries, keyed by SimpleId, `"<width>x<height>"`,
`"x<position_x>_y<position_y>"` and the monitor name respectively. -/
theorem C7_two_display_sections (d0 d1 : Display)
    (_hp0 : d0.is_primary = true) (hw0 : d0.width = 1920) (hh0 : d0.height = 1080)
    (hx0 : d0.position_x = 0) (hy0 : d0.position_y = 0)
    (_hp1 : d1.is_primary = false) (hw1 : d1.width = 1080) (hh1 : d1.height = 1920)
    (hx1 : d1.position_x = 1920) (hy1 : d1.position_y = 0) :
    (folder_entries [d0, d1]).length = 2 ∧
    folder_entries [d0, d1] = [folder_suggestion d0, folder_suggestion d1] ∧
    folder_suggestion d0 =
      pyPrint ("Display " ++ toString d0.index ++ ": " ++ d0.device_string ++
        " (" ++ option2_key d0 ++ " " ++
        classify_orientation_lower d0.width d0.height ++ ")") ++
      pyPrint ("  " ++ folder_default_path d0) ++
      pyPrint ("  " ++ folder_trigger_path d0) ++
      pyPrint "" ∧
    folder_suggestion d1 =
      pyPrint ("Display " ++ toString d1.index ++ ": " ++ d1.device_string ++
        " (" ++ option2_key d1 ++ " " ++
        classify_orientation_lower d1.width d1.height ++ ")") ++
      pyPrint ("  " ++ folder_default_path d1) ++
      pyPrint ("  " ++ folder_trigger_path d1) ++
      pyPrint "" ∧
    classify_orientation_lower d0.width d0.height = "landscape" ∧
    classify_orientation_lower d1.width d1.height = "portrait" ∧
    folder_default_path d0 = "C:\\" ++ option1_key d0 ++ "_default\\video.mp4" ∧
    folder_trigger_path d0 = "C:\\" ++ option1_key d0 ++ "_trigger\\video.mp4" ∧
    option1_entries [d0, d1] = [option1_entry d0, option1_entry d1] ∧
    option1_key d0 = extract_display_id (some d0.device_id) ∧
    option1_key d1 = extract_display_id (some d1.device_id) ∧
    option2_entries [d0, d1] = [option2_entry d0, option2_entry d1] ∧
    option2_key d0 = "1920x1080" ∧
    option2_key d1 = "1080x1920" ∧
    option3_entries [d0, d1] = [option3_entry d0, option3_entry d1] ∧
    option3_key d0 = "x0_y0" ∧
    option3_key d1 = "x1920_y0" ∧
    option4_entries [d0, d1] = [option4_entry d0, option4_entry d1] ∧
    option4_key d0 = d0.device_string ∧
    option4_key d1 = d1.device_string := by
  refine ⟨rfl, rfl, ?_, ?_, ?_, ?_, rfl, rfl, rfl, rfl, rfl, rfl, ?_, ?_, rfl,
    ?_, ?_, rfl, rfl, rfl⟩
  · simp [folder_suggestion, option2_key, pyPrint, str_append_assoc]
  · simp [folder_suggestion, option2_key, pyPrint, str_append_assoc]
  · rw [hw0, hh0]; decide
  · rw [hw1, hh1]; decide
  · simp only [option2_key, hw0, hh0]; decide
  · simp only [option2_key, hw1, hh1]; decide
  · simp only [option3_key, hx0, hy0]; decide
  · simp only [option3_key, hx1, hy1]; decide

/-- Witness for C7 at two concrete displays. -/
theorem C7_two_display_witness :
    folder_entries [demoDisplay0, demoDisplay1] =
      [folder_suggestion demoDisplay0, folder_suggestion demoDisplay1] ∧
    option2_key demoDisplay0 = "1920x1080" ∧
    option3_key demoDisplay1 = "x1920_y0" ∧
    option4_key demoDisplay1 = demoDisplay1.device_string := by
  obtain ⟨-, h2, -, -, -, -, -, -, -, -, -, -, h13, -, -, -, h17, -, -, h20⟩ :=
    C7_two_display_sections demoDisplay0 demoDisplay1
      rfl rfl rfl rfl rfl rfl rfl rfl rfl rfl
  exact ⟨h2, h13, h17, h20⟩

/-- Claim C8: a `KeyboardInterrupt` is reported with the cancellation notice
and exit status 0; any other exception is reported with its message and exit
status 1. -/
theorem C8_interrupt_and_error_exit :
    (top_level RunOutcome.interrupted).2 = 0 ∧
    (top_level RunOutcome.interrupted).1 =
      pyPrint "\n\nDetection cancelled by user." ∧
    (∀ msg : String,
      (top_level (RunOutcome.raised msg)).2 = 1 ∧
      (top_level (RunOutcome.raised msg)).1 =
        pyPrint ("\n❌ ERROR: " ++ msg) ++
        pyPrint "\nIf you see import errors, install pywin32:" ++
        pyPrint "  pip install pywin32") :=
  ⟨rfl, rfl, fun _ => ⟨rfl, rfl⟩⟩

/-- Helper: every per-display rendering function of the report yields equal
text on records that agree on every field except `state_flags`. -/
theorem display_funs_congr (d1 d2 : Display) (h : sameExceptFlags d1 d2) :
    display_block d1 = display_block d2 ∧
    folder_suggestion d1 = folder_suggestion d2 ∧
    config_entry d1 = config_entry d2 ∧
    option1_entry d1 = option1_entry d2 ∧
    option2_entry d1 = option2_entry d2 ∧
    option3_entry d1 = option3_entry d2 ∧
    option4_entry d1 = option4_entry d2 := by
  cases d1
  cases d2
  simp only [sameExceptFlags] at h
  obtain ⟨h1, h2, h3, h4, h5, h6, h7, h8, h9, h10, h11, h12, h13⟩ := h
  subst h1 h2 h3 h4 h5 h6 h7 h8 h9 h10 h11 h12 h13
  exact ⟨rfl, rfl, rfl, rfl, rfl, rfl, rfl⟩

/-- Helper: mapping a per-display function that is invariant under
`sameExceptFlags` over two pointwise-agreeing lists yields equal lists. -/
theorem map_congr_forall2 (f : Display → String)
    (hf : ∀ d1 d2, sameExceptFlags d1 d2 → f d1 = f d2) :
    ∀ ds1 ds2, List.Forall₂ sameExceptFlags ds1 ds2 →
      ds1.map f = ds2.map f := by
  intro ds1 ds2 h
  induction h with
  | nil => rfl
  | cons hd _ ih => simp [hf _ _ hd, ih]

/-- Claim C9: the report never depends on `state_flags`; two display lists
that agree pointwise on every other field produce identical report text. -/
theorem C9_state_flags_noninterference (ds1 ds2 : List Display)
    (h : List.Forall₂ sameExceptFlags ds1 ds2) :
    print_display_report ds1 = print_display_report ds2 := by
  have hlen : ds1.length = ds2.length := h.length_eq
  have hb := map_congr_forall2 display_block
    (fun a b hab => (display_funs_congr a b hab).1) ds1 ds2 h
  have hfold := map_congr_forall2 folder_suggestion
    (fun a b hab => (display_funs_congr a b hab).2.1) ds1 ds2 h
  have hconf := map_congr_forall2 config_entry
    (fun a b hab => (display_funs_congr a b hab).2.2.1) ds1 ds2 h
  have ho1 := map_congr_forall2 option1_entry
    (fun a b hab => (display_funs_congr a b hab).2.2.2.1) ds1 ds2 h
  have ho2 := map_congr_forall2 option2_entry
    (fun a b hab => (display_funs_congr a b hab).2.2.2.2.1) ds1 ds2 h
  have ho3 := map_congr_forall2 option3_entry
    (fun a b hab => (display_funs_congr a b hab).2.2.2.2.2.1) ds1 ds2 h
  have ho4 := map_congr_forall2 option4_entry
    (fun a b hab => (display_funs_congr a b hab).2.2.2.2.2.2) ds1 ds2 h
  simp only [print_display_report, header_section, folder_section,
    config_section, alt_section, folder_entries, option1_entries,
    option2_entries, option3_entries, option4_entries,
    hlen, hb, hfold, hconf, ho1, ho2, ho3, ho4]

/-- Witness for C9: changing only `state_flags` of a concrete display leaves
the report unchanged. -/
theorem C9_noninterference_witness :
    print_display_report [demoDisplay0] =
      print_display_report [{ demoDisplay0 with state_flags := 99 }] :=
  C9_state_flags_noninterference _ _
    (List.Forall₂.cons (by simp [sameExceptFlags]) List.Forall₂.nil)

/-- Claim C10: `extract_display_id` is total: on every input (a string or
`None`) it returns a string; when the `try` body raises it returns
`"UNKNOWN"`, and when the body succeeds it returns the body's value. -/
theorem C10_extract_total :
    ∀ x : Option String,
      (∃ r : String, extract_display_id x = r) ∧
      (∀ e, extract_display_id_try x = Except.error e →
        extract_display_id x = "UNKNOWN") ∧
      (∀ s, extract_display_id_try x = Except.ok s →
        extract_display_id x = s) := by
  intro x
  refine ⟨⟨extract_display_id x, rfl⟩, ?_, ?_⟩
  · intro e he
    simp [extract_display_id, he]
  · intro s hs
    simp [extract_display_id, hs]

/-- Witness for C10 at the `None` input, whose body raises. -/
theorem C10_total_witness :
    extract_display_id_try none =
      Except.error "AttributeError: NoneType object has no attribute split" ∧
    extract_display_id none = "UNKNOWN" :=
  ⟨rfl, (C10_extract_total none).2.1 _ rfl⟩

end DetectDisplays
